import Mathlib

/-!
Shallow embedding of the exercita365b backend (Node/Express/Sequelize).

The repository contains two versions of the route file: `src/index.js` and
`src/unnamed/part_000` (the latter adds express-validator checks, helmet,
rate limiting).  Where the two versions differ, both are embedded: the
suffix `Idx` marks the `src/index.js` version, the suffix `V0` marks the
`src/unnamed/part_000` version.  External libraries (jsonwebtoken, bcrypt,
validator.js) are modelled by executable Lean functions that follow their
documented behaviour on the inputs the routes use.
-/

namespace Exercita365

/-- A persisted user row (model `User`, fields used by the routes).
`password` holds the bcrypt hash, never the clear text. -/
structure User where
  id : Nat
  name : String
  gender : String
  cpf : String
  address : String
  email : String
  password : String
  birthdate : String
deriving DecidableEq

/-- A persisted location row (model `Location` from the `Location.init`
schema: name, description, address, coordinates nullable, plus the
`userId` foreign key added by the association). -/
structure Location where
  id : Nat
  name : String
  description : String
  address : String
  coordinates : Option String
  userId : Nat
deriving DecidableEq

/-- The persistent store: the two tables, plus the next server-generated
primary key for each. -/
structure DB where
  users : List User
  locations : List Location
  nextUserId : Nat
  nextLocId : Nat
deriving DecidableEq

/-- Model of a signed JWT: the payload (`{ id: ... }`), the optional
absolute expiry instant (seconds), and the signing secret standing in for
the signature. -/
structure Token where
  userId : Nat
  exp : Option Nat
  secret : String
deriving DecidableEq

/-- Model of `jwt.sign({ id: uid }, secret, opts)`: `expiresIn` of `d`
seconds becomes the absolute instant `now + d`; no `expiresIn` means no
`exp` claim. The login route passes `expiresIn: '1h'` (3600 s). -/
def jwtSign (uid : Nat) (secret : String) (expiresIn : Option Nat) (now : Nat) : Token :=
  { userId := uid, exp := expiresIn.map (fun d => now + d), secret := secret }

/-- Model of `jwt.verify(token, secret)`: succeeds with the payload id iff
the signature matches and the `exp` claim, when present, has not passed
(jsonwebtoken treats `now >= exp` as expired). -/
def jwtVerify (t : Token) (secret : String) (now : Nat) : Option Nat :=
  if t.secret = secret then
    match t.exp with
    | none => some t.userId
    | some e => if now < e then some t.userId else none
  else none

/-- Model of `bcrypt.hash(p, 8)`: deterministic stand-in (the salt is
abstracted away); `bcryptCompare` below checks the preimage relation that
`bcrypt.compare` implements. -/
def bcryptHash (p : String) : String := "bcrypt8$" ++ p

/-- Model of `bcrypt.compare(p, h)`: true iff `h` is a hash of `p`. -/
def bcryptCompare (p h : String) : Bool := h = bcryptHash p

/-- The HTTP responses the routes produce, up to the payload shapes the
claims talk about. -/
inductive Resp where
  | err (status : Nat) (msg : String)
  | okMsg (status : Nat) (msg : String)
  | okLocation (status : Nat) (l : Location)
  | okLocations (ls : List Location)
  | okUserToken (status : Nat) (u : User) (t : Token)
  | validationErrors (fields : List String)
  | uncaughtTypeError
deriving DecidableEq

/-- The HTTP status code of a response. `validationErrors` is sent with
`res.status(400).json(...)`; an uncaught exception surfaces as an internal
error (500) from the framework, not as any handler-written status. -/
def Resp.statusCode : Resp → Nat
  | .err s _ => s
  | .okMsg s _ => s
  | .okLocation s _ => s
  | .okLocations _ => 200
  | .okUserToken s _ _ => s
  | .validationErrors _ => 400
  | .uncaughtTypeError => 500

/-! ## Auth middleware (src/middleware/auth.js) -/

/-- The state of the request's Authorization header as the middleware sees
it: absent entirely, or present with the credential left after stripping
the `Bearer ` prefix (`none` when nothing is left, i.e. the falsy empty
string; `some t` when a nonempty credential parses as the token `t`). -/
inductive AuthHeader where
  | missing
  | present (cred : Option Token)
deriving DecidableEq

/-- Outcome of the middleware. `crash` models the TypeError thrown by
`req.header('Authorization').replace(...)` when the header is absent:
the exception escapes the middleware (the try only wraps `jwt.verify`). -/
inductive AuthResult where
  | crash
  | unauthorized
  | invalidToken
  | ok (userId : Nat)
deriving DecidableEq

/-- src/middleware/auth.js: read the header and strip the prefix (throws
when the header is absent), 401 when the remaining token is falsy, then
verify inside try/catch: 400 on failure, `req.user = decoded` on success. -/
def auth (h : AuthHeader) (secret : String) (now : Nat) : AuthResult :=
  match h with
  | .missing => .crash
  | .present none => .unauthorized
  | .present (some t) =>
    match jwtVerify t secret now with
    | some uid => .ok uid
    | none => .invalidToken

/-- A protected route: the middleware runs first; the handler runs only
when the middleware called `next()` after attaching the verified id. -/
def runProtected (h : AuthHeader) (secret : String) (now : Nat)
    (handler : Nat → DB → Resp × DB) (db : DB) : Resp × DB :=
  match auth h secret now with
  | .ok uid => handler uid db
  | .unauthorized => (.err 401 "Acesso negado. Nenhum token fornecido.", db)
  | .invalidToken => (.err 400 "Token inválido.", db)
  | .crash => (.uncaughtTypeError, db)

/-! ## validator.js models (external library) -/

/-- Model of validator.js `escape`: replace the HTML-significant
characters with entities. -/
def escapeChar (c : Char) : List Char :=
  if c = '&' then "&amp;".data
  else if c = '<' then "&lt;".data
  else if c = '>' then "&gt;".data
  else if c = Char.ofNat 34 then "&quot;".data
  else if c = Char.ofNat 39 then "&#x27;".data
  else if c = Char.ofNat 96 then "&#x60;".data
  else if c = Char.ofNat 92 then "&#x5C;".data
  else if c = '/' then "&#x2F;".data
  else [c]

/-- Model of validator.js `escape` lifted to strings. -/
def escapeStr (s : String) : String := ⟨(s.data.map escapeChar).flatten⟩

/-- Whitespace as `String.trim` treats it. -/
def isWS (c : Char) : Bool := c = ' ' ∨ c = Char.ofNat 9 ∨ c = Char.ofNat 10 ∨ c = Char.ofNat 13

/-- Model of `String.trim`: strip whitespace from both ends. -/
def trimStr (s : String) : String :=
  ⟨((s.data.dropWhile isWS).reverse.dropWhile isWS).reverse⟩

/-- The `.trim().escape()` sanitizer chain used on location text fields. -/
def sanitize (s : String) : String := escapeStr (trimStr s)

/-- Model of validator.js `isEmail` restricted to what the routes rely on:
a nonempty local part, a single at-sign, and a nonempty domain that
contains a dot not at either end. -/
def isEmailModel (s : String) : Bool :=
  let cs := s.toList
  let lp := cs.takeWhile (fun c => c ≠ '@')
  match cs.dropWhile (fun c => c ≠ '@') with
  | '@' :: dom =>
    (!lp.isEmpty) && (!dom.isEmpty) && dom.all (fun c => c ≠ '@') &&
    dom.contains '.' && (dom.head? ≠ some '.' : Bool) && (dom.getLast? ≠ some '.' : Bool)
  | _ => false

/-- ASCII lowercase of one character. -/
def toLowerChar (c : Char) : Char :=
  if 65 ≤ c.toNat ∧ c.toNat ≤ 90 then Char.ofNat (c.toNat + 32) else c

/-- Model of validator.js `normalizeEmail` with its defaults: the address
is lowercased (provider-specific canonicalizations are abstracted away). -/
def normalizeEmail (s : String) : String := ⟨s.data.map toLowerChar⟩

/-- Numeric value of a decimal digit character. -/
def d2n (c : Char) : Nat := c.toNat - 48

/-- Gregorian leap year test. -/
def isLeapYear (y : Nat) : Bool := (y % 4 == 0 && y % 100 != 0) || y % 400 == 0

/-- Days in a month of a given year. -/
def daysInMonth (y m : Nat) : Nat :=
  if m = 2 then (if isLeapYear y then 29 else 28)
  else if m = 4 || m = 6 || m = 9 || m = 11 then 30
  else 31

/-- Model of the `isISO8601().toDate()` birthdate check, restricted to the
`YYYY-MM-DD` form the API documents: the string must be a valid calendar
date. -/
def isISO8601Date (s : String) : Bool :=
  match s.toList with
  | [y1, y2, y3, y4, h1, m1, m2, h2, d1, d2] =>
    h1 = '-' && h2 = '-' &&
    ([y1, y2, y3, y4, m1, m2, d1, d2].all Char.isDigit) &&
    (let y := ((d2n y1 * 10 + d2n y2) * 10 + d2n y3) * 10 + d2n y4
     let m := d2n m1 * 10 + d2n m2
     let d := d2n d1 * 10 + d2n d2
     1 ≤ m && m ≤ 12 && 1 ≤ d && d ≤ daysInMonth y m)
  | _ => false

/-! ## Registration and login -/

/-- The JSON body of `POST /usuario`. -/
structure RegisterBody where
  name : String
  gender : String
  cpf : String
  address : String
  email : String
  password : String
  birthdate : String
deriving DecidableEq

/-- The express-validator chain on `POST /usuario` in part_000, in chain
order; returns the names of the offending fields (what `errors.array()`
reports via each error's `path`). -/
def validateRegister (b : RegisterBody) : List String :=
  (if b.name = "" then ["name"] else []) ++
  (if b.gender = "M" ∨ b.gender = "F" then [] else ["gender"]) ++
  (if b.cpf.length = 11 then [] else ["cpf"]) ++
  (if b.address = "" then ["address"] else []) ++
  (if isEmailModel b.email then [] else ["email"]) ++
  (if b.password.length ≥ 6 then [] else ["password"]) ++
  (if isISO8601Date b.birthdate then [] else ["birthdate"])

/-- The duplicate lookup `User.findOne({ where: { [Op.or]: [{cpf},{email}] } })`. -/
def dupUser (db : DB) (cpf email : String) : Option User :=
  db.users.find? (fun u => u.cpf == cpf || u.email == email)

/-- The row `User.create` inserts on registration: the request fields with
the hashed password and the next server-generated id. -/
def mkUser (db : DB) (b : RegisterBody) : User :=
  { id := db.nextUserId, name := b.name, gender := b.gender, cpf := b.cpf,
    address := b.address, email := b.email, password := bcryptHash b.password,
    birthdate := b.birthdate }

/-- `POST /usuario`, part_000 version: validators first, then the
duplicate check, then create and sign a token with no `expiresIn`. -/
def postUsuario (db : DB) (b : RegisterBody) (secret : String) : Resp × DB :=
  if validateRegister b ≠ [] then (.validationErrors (validateRegister b), db)
  else
    match dupUser db b.cpf b.email with
    | some _ => (.err 400 "Usuário com o mesmo CPF ou email já cadastrado.", db)
    | none =>
      let u := mkUser db b
      (.okUserToken 201 u (jwtSign u.id secret none 0),
       { db with users := db.users ++ [u], nextUserId := db.nextUserId + 1 })

/-- `POST /usuario`, src/index.js version: no validators at all; duplicate
check, create, token with no `expiresIn`. -/
def postUsuarioIdx (db : DB) (b : RegisterBody) (secret : String) : Resp × DB :=
  match dupUser db b.cpf b.email with
  | some _ => (.err 400 "Usuário com o mesmo CPF ou email já cadastrado.", db)
  | none =>
    let u := mkUser db b
    (.okUserToken 201 u (jwtSign u.id secret none 0),
     { db with users := db.users ++ [u], nextUserId := db.nextUserId + 1 })

/-- `User.findOne({ where: { email } })`. -/
def findByEmail (db : DB) (email : String) : Option User :=
  db.users.find? (fun u => u.email == email)

/-- `POST /login`, part_000 version: validators `isEmail().normalizeEmail()`
and `isLength({ min: 8 })` first (the sanitizer lowercases the email the
handler then looks up); distinct messages for missing account and wrong
password; success signs a token with `expiresIn: '1h'`. -/
def postLogin (db : DB) (email password secret : String) (now : Nat) : Resp :=
  let errs :=
    (if isEmailModel email then [] else ["email"]) ++
    (if password.length ≥ 8 then [] else ["password"])
  if errs ≠ [] then .validationErrors errs
  else
    match findByEmail db (normalizeEmail email) with
    | none => .err 400 "Usuário não encontrado."
    | some u =>
      if bcryptCompare password u.password then
        .okUserToken 200 u (jwtSign u.id secret (some 3600) now)
      else .err 400 "Senha incorreta."

/-- `POST /login`, src/index.js version: no validators, email looked up
verbatim, and the token is signed with no `expiresIn`. -/
def postLoginIdx (db : DB) (email password secret : String) (now : Nat) : Resp :=
  match findByEmail db email with
  | none => .err 400 "Usuário não encontrado."
  | some u =>
    if bcryptCompare password u.password then
      .okUserToken 200 u (jwtSign u.id secret none now)
    else .err 400 "Senha incorreta."

/-! ## Location routes -/

/-- `Location.findOne({ where: { id: local_id, userId: req.user.id } })`:
the shared ownership-scoped lookup of every per-location route. -/
def findOwned (db : DB) (uid lid : Nat) : Option Location :=
  db.locations.find? (fun l => l.id == lid && l.userId == uid)

/-- The JSON body of `POST /local` (the index.js version also reads a
`coordinates` key; part_000 ignores it). -/
structure CreateBody where
  name : String
  description : String
  address : String
  coordinates : Option String
deriving DecidableEq

/-- `POST /local`, src/index.js version: persists name, description,
address and the caller-supplied `coordinates` verbatim, with
`userId := req.user.id`. -/
def postLocalIdx (db : DB) (uid : Nat) (b : CreateBody) : Resp × DB :=
  let l : Location :=
    { id := db.nextLocId, name := b.name, description := b.description,
      address := b.address, coordinates := b.coordinates, userId := uid }
  (.okLocation 201 l, { db with locations := db.locations ++ [l], nextLocId := db.nextLocId + 1 })

/-- `POST /local`, part_000 version: validators require nonempty name and
description (the address check has no length constraint), the text fields
are sanitized, and the handler destructures only name, description and
address, so any `coordinates` key in the body is discarded. -/
def postLocal (db : DB) (uid : Nat) (b : CreateBody) : Resp × DB :=
  let errs :=
    (if b.name.length ≥ 1 then [] else ["name"]) ++
    (if b.description.length ≥ 1 then [] else ["description"])
  if errs ≠ [] then (.validationErrors errs, db)
  else
    let l : Location :=
      { id := db.nextLocId, name := sanitize b.name, description := sanitize b.description,
        address := sanitize b.address, coordinates := none, userId := uid }
    (.okLocation 201 l, { db with locations := db.locations ++ [l], nextLocId := db.nextLocId + 1 })

/-- `GET /local`: list the caller's locations. -/
def getLocalList (db : DB) (uid : Nat) : Resp :=
  .okLocations (db.locations.filter (fun l => l.userId == uid))

/-- `GET /local/:local_id` (identical in both versions). -/
def getLocalById (db : DB) (uid lid : Nat) : Resp :=
  match findOwned db uid lid with
  | none => .err 404 "Local não encontrado."
  | some l => .okLocation 200 l

/-- The keys of the `PUT /local/:local_id` JSON body that fall on columns
of the Location schema.  The handler copies every key of the body onto the
record (`Object.keys(updates).forEach(...)`), so a `userId` key in the
body is applied like any other; the primary key is not modelled as
assignable. -/
structure UpdateBody where
  name : Option String
  description : Option String
  address : Option String
  coordinates : Option String
  userId : Option Nat
deriving DecidableEq

/-- The field-copy loop of the PUT handler, src/index.js version: every
present key overwrites the record verbatim; absent keys leave the record
untouched. -/
def applyUpdates (l : Location) (u : UpdateBody) : Location :=
  { id := l.id
    name := u.name.getD l.name
    description := u.description.getD l.description
    address := u.address.getD l.address
    coordinates := match u.coordinates with | some c => some c | none => l.coordinates
    userId := u.userId.getD l.userId }

/-- The field-copy loop of the PUT handler, part_000 version: the optional
validators sanitize (trim + escape) a present name, description or
address before the copy; `coordinates` and `userId` keys have no
validator and are copied verbatim. -/
def applyUpdatesV0 (l : Location) (u : UpdateBody) : Location :=
  { id := l.id
    name := (u.name.map sanitize).getD l.name
    description := (u.description.map sanitize).getD l.description
    address := (u.address.map sanitize).getD l.address
    coordinates := match u.coordinates with | some c => some c | none => l.coordinates
    userId := u.userId.getD l.userId }

/-- `PUT /local/:local_id`, src/index.js version: ownership-scoped lookup,
404 on miss, otherwise copy the body onto the record, save, and return
the merged record. -/
def putLocalById (db : DB) (uid lid : Nat) (body : UpdateBody) : Resp × DB :=
  match findOwned db uid lid with
  | none => (.err 404 "Local não encontrado.", db)
  | some l =>
    let merged := applyUpdates l body
    (.okLocation 200 merged,
     { db with locations := db.locations.map (fun x => if x.id == lid then merged else x) })

/-- `PUT /local/:local_id`, part_000 version (same handler body; the
validators sanitize the three text fields, and their result is never
checked, so no validation failure path exists). -/
def putLocalByIdV0 (db : DB) (uid lid : Nat) (body : UpdateBody) : Resp × DB :=
  match findOwned db uid lid with
  | none => (.err 404 "Local não encontrado.", db)
  | some l =>
    let merged := applyUpdatesV0 l body
    (.okLocation 200 merged,
     { db with locations := db.locations.map (fun x => if x.id == lid then merged else x) })

/-- `DELETE /local/:local_id` (identical in both versions): ownership-
scoped lookup, 404 on miss, otherwise destroy the row. -/
def deleteLocalById (db : DB) (uid lid : Nat) : Resp × DB :=
  match findOwned db uid lid with
  | none => (.err 404 "Local não encontrado.", db)
  | some _ =>
    (.okMsg 200 "Local deletado com sucesso.",
     { db with locations := db.locations.filter (fun x => !(x.id == lid)) })

/-- `GET /local/:local_id/maps` (identical in both versions): ownership-
scoped lookup, 404 on miss; the geocoding call is an external collaborator
passed as a function from the stored address to an optional (lat, lon)
pair; no match is a 404, a match is composed into the fixed URL template. -/
def getLocalMaps (db : DB) (uid lid : Nat)
    (geocode : String → Option (String × String)) : Resp :=
  match findOwned db uid lid with
  | none => .err 404 "Local não encontrado."
  | some l =>
    match geocode l.address with
    | none => .err 404 "Endereço não encontrado no OpenStreetMap."
    | some (lat, lon) =>
      .okMsg 200 ("https://www.google.com/maps/search/?api=1&query=" ++ lat ++ "," ++ lon)

/-! ## User deletion -/

/-- `User.findByPk(id)`. -/
def findByPk (db : DB) (uid : Nat) : Option User :=
  db.users.find? (fun u => u.id == uid)

/-- `Location.findAll({ where: { userId: id } })`. -/
def userLocations (db : DB) (uid : Nat) : List Location :=
  db.locations.filter (fun l => l.userId == uid)

/-- `DELETE /usuario/:id` (identical in both versions): the caller's
verified identity is attached by the middleware but never compared with
the target id; 404 when the target does not exist, 400 (blocked) when the
target owns locations, otherwise destroy the row. -/
def deleteUsuarioById (db : DB) (_caller : Nat) (targetId : Nat) : Resp × DB :=
  match findByPk db targetId with
  | none => (.err 404 "Usuário não encontrado.", db)
  | some _ =>
    if (userLocations db targetId).length > 0 then
      (.err 400 "Usuário não pode ser deletado, pois possui locais associados.", db)
    else
      (.okMsg 200 "Usuário deletado com sucesso.",
       { db with users := db.users.filter (fun x => !(x.id == targetId)) })

/-! ## Shared fixtures and helper lemmas -/

/-- An empty store, as after migration: ids start at 1. -/
def emptyDB : DB := { users := [], locations := [], nextUserId := 1, nextLocId := 1 }

/-- The ownership-scoped lookup misses exactly when no stored location has
both the requested id and the caller as owner. -/
theorem findOwned_eq_none_iff (db : DB) (uid lid : Nat) :
    findOwned db uid lid = none ↔ ∀ l ∈ db.locations, ¬(l.id = lid ∧ l.userId = uid) := by
  unfold findOwned
  rw [List.find?_eq_none]
  constructor
  · intro h l hl
    have := h l hl
    simp only [Bool.and_eq_true, beq_iff_eq] at this
    exact this
  · intro h l hl
    have := h l hl
    simp only [Bool.and_eq_true, beq_iff_eq]
    exact this

/-- Membership in an if-then-else list whose else branch is empty. -/
theorem mem_ite_nil_r {a : String} {c : Prop} [Decidable c] {l : List String} :
    a ∈ (if c then l else []) ↔ c ∧ a ∈ l := by
  split_ifs with h <;> simp [h]

/-- Membership in an if-then-else list whose then branch is empty. -/
theorem mem_ite_nil_l {a : String} {c : Prop} [Decidable c] {l : List String} :
    a ∈ (if c then [] else l) ↔ ¬c ∧ a ∈ l := by
  split_ifs with h <;> simp [h]

/-- A successful ownership-scoped lookup returns a stored location with
the requested id and the caller as owner. -/
theorem findOwned_spec {db : DB} {uid lid : Nat} {l : Location}
    (h : findOwned db uid lid = some l) :
    l ∈ db.locations ∧ l.id = lid ∧ l.userId = uid := by
  unfold findOwned at h
  have hm := List.mem_of_find?_eq_some h
  have hp := List.find?_some h
  simp only [Bool.and_eq_true, beq_iff_eq] at hp
  exact ⟨hm, hp.1, hp.2⟩

/-! ## C1 -/

/-- C1 fixture: a location created by (and owned by) user 1. -/
def c1loc : Location :=
  { id := 1, name := "p", description := "d", address := "a", coordinates := none, userId := 1 }

/-- C1 fixture store. -/
def c1db : DB := { users := [], locations := [c1loc], nextUserId := 1, nextLocId := 2 }

/-- C1 fixture update body carrying a userId key. -/
def c1hijack : UpdateBody :=
  { name := none, description := none, address := none, coordinates := none, userId := some 2 }

/-- C1 counterexample: the PUT handler copies every key of the JSON body
onto the record, so an update whose body contains a userId key reassigns
the owner: after owner 1 updates location 1 with body containing
userId 2, the stored owner is 2, no longer the owner at creation.  Both
route versions behave this way. -/
theorem c1_counterexample :
    c1db.locations.map Location.userId = [1] ∧
    (putLocalById c1db 1 1 c1hijack).2.locations.map Location.userId = [2] ∧
    (putLocalByIdV0 c1db 1 1 c1hijack).2.locations.map Location.userId = [2] := by
  decide

/-- C1 fixture: an update body without a userId key. -/
def c1keep : UpdateBody :=
  { name := some "New", description := none, address := none, coordinates := none, userId := none }

/-- C1 fixture create body. -/
def c1create : CreateBody :=
  { name := "Park", description := "desc", address := "Central Park", coordinates := none }

/-- C1 (amended): the owner is set at creation from the verified token
identity, and it is never changed by any subsequent update or delete
provided the update body does not contain a userId key: after create every
location is pre-existing or owned by the caller; after such an update
every location keeps the id and owner of a pre-existing location; delete
only removes records. -/
theorem c1_owner_fixed (db : DB) (uid lid : Nat) (body : UpdateBody) (b : CreateBody)
    (hbody : body.userId = none) :
    (∀ l ∈ (postLocalIdx db uid b).2.locations, l ∈ db.locations ∨ l.userId = uid) ∧
    (∀ l ∈ (postLocal db uid b).2.locations, l ∈ db.locations ∨ l.userId = uid) ∧
    (∀ l ∈ (putLocalById db uid lid body).2.locations,
      ∃ l0 ∈ db.locations, l0.id = l.id ∧ l0.userId = l.userId) ∧
    (∀ l ∈ (putLocalByIdV0 db uid lid body).2.locations,
      ∃ l0 ∈ db.locations, l0.id = l.id ∧ l0.userId = l.userId) ∧
    (∀ l ∈ (deleteLocalById db uid lid).2.locations, l ∈ db.locations) := by
  refine ⟨?_, ?_, ?_, ?_, ?_⟩
  · intro l hl
    simp only [postLocalIdx, List.mem_append, List.mem_singleton] at hl
    rcases hl with hl | hl
    · exact Or.inl hl
    · subst hl; exact Or.inr rfl
  · intro l hl
    by_cases hn : b.name.length ≥ 1
    · by_cases hd : b.description.length ≥ 1
      · simp only [postLocal, hn, hd, ge_iff_le, le_refl, ite_true, List.append_nil,
          List.nil_append, ne_eq, not_true_eq_false, ite_self] at hl
        simp only [reduceIte, List.mem_append, List.mem_singleton] at hl
        rcases hl with hl | hl
        · exact Or.inl hl
        · subst hl; exact Or.inr rfl
      · simp [postLocal, hn, hd] at hl
        exact Or.inl hl
    · simp [postLocal, hn] at hl
      exact Or.inl hl
  · intro l hl
    unfold putLocalById at hl
    cases hfo : findOwned db uid lid with
    | none =>
      rw [hfo] at hl
      exact ⟨l, hl, rfl, rfl⟩
    | some l1 =>
      rw [hfo] at hl
      simp only [List.mem_map] at hl
      obtain ⟨x, hx, hxe⟩ := hl
      by_cases hid : (x.id == lid) = true
      · rw [if_pos hid] at hxe
        refine ⟨l1, (findOwned_spec hfo).1, ?_, ?_⟩
        · rw [← hxe]; rfl
        · rw [← hxe]
          simp [applyUpdates, hbody]
      · rw [if_neg hid] at hxe
        subst hxe
        exact ⟨x, hx, rfl, rfl⟩
  · intro l hl
    unfold putLocalByIdV0 at hl
    cases hfo : findOwned db uid lid with
    | none =>
      rw [hfo] at hl
      exact ⟨l, hl, rfl, rfl⟩
    | some l1 =>
      rw [hfo] at hl
      simp only [List.mem_map] at hl
      obtain ⟨x, hx, hxe⟩ := hl
      by_cases hid : (x.id == lid) = true
      · rw [if_pos hid] at hxe
        refine ⟨l1, (findOwned_spec hfo).1, ?_, ?_⟩
        · rw [← hxe]; rfl
        · rw [← hxe]
          simp [applyUpdatesV0, hbody]
      · rw [if_neg hid] at hxe
        subst hxe
        exact ⟨x, hx, rfl, rfl⟩
  · intro l hl
    unfold deleteLocalById at hl
    cases hfo : findOwned db uid lid with
    | none =>
      rw [hfo] at hl
      exact hl
    | some l1 =>
      rw [hfo] at hl
      exact List.mem_of_mem_filter hl

/-- C1 witness: the amended theorem applied at concrete inputs. -/
theorem c1_owner_fixed_witness :
    (∀ l ∈ (postLocalIdx c1db 1 c1create).2.locations, l ∈ c1db.locations ∨ l.userId = 1) ∧
    (∀ l ∈ (postLocal c1db 1 c1create).2.locations, l ∈ c1db.locations ∨ l.userId = 1) ∧
    (∀ l ∈ (putLocalById c1db 1 1 c1keep).2.locations,
      ∃ l0 ∈ c1db.locations, l0.id = l.id ∧ l0.userId = l.userId) ∧
    (∀ l ∈ (putLocalByIdV0 c1db 1 1 c1keep).2.locations,
      ∃ l0 ∈ c1db.locations, l0.id = l.id ∧ l0.userId = l.userId) ∧
    (∀ l ∈ (deleteLocalById c1db 1 1).2.locations, l ∈ c1db.locations) :=
  c1_owner_fixed c1db 1 1 c1keep c1create rfl

/-! ## C4 -/

/-- C4: the update operation merges exactly the fields present in the
body onto the owned record, leaves every absent field unchanged, persists
the merged record, and returns it; in particular a body containing only
name leaves description and address unchanged.  For the part_000 version
a present text field is stored sanitized (trimmed and escaped) and absent
fields are likewise left unchanged. -/
theorem c4_partial_update (db : DB) (uid lid : Nat) (body : UpdateBody) (l : Location)
    (h : findOwned db uid lid = some l) :
    putLocalById db uid lid body
      = (.okLocation 200 (applyUpdates l body),
         { db with
           locations :=
             db.locations.map (fun x => if x.id == lid then applyUpdates l body else x) }) ∧
    applyUpdates l body ∈ (putLocalById db uid lid body).2.locations ∧
    (body.name = none → (applyUpdates l body).name = l.name) ∧
    (body.description = none → (applyUpdates l body).description = l.description) ∧
    (body.address = none → (applyUpdates l body).address = l.address) ∧
    (body.coordinates = none → (applyUpdates l body).coordinates = l.coordinates) ∧
    (body.userId = none → (applyUpdates l body).userId = l.userId) ∧
    (∀ v, body.name = some v → (applyUpdates l body).name = v) ∧
    (∀ v, body.description = some v → (applyUpdates l body).description = v) ∧
    (∀ v, body.address = some v → (applyUpdates l body).address = v) ∧
    (∀ v, body = { name := some v, description := none, address := none,
                   coordinates := none, userId := none } →
      applyUpdates l body = { l with name := v }) ∧
    (body.description = none → (applyUpdatesV0 l body).description = l.description) ∧
    (body.address = none → (applyUpdatesV0 l body).address = l.address) ∧
    (body.coordinates = none → (applyUpdatesV0 l body).coordinates = l.coordinates) := by
  have heq : putLocalById db uid lid body
      = (.okLocation 200 (applyUpdates l body),
         { db with
           locations :=
             db.locations.map (fun x => if x.id == lid then applyUpdates l body else x) }) := by
    simp [putLocalById, h]
  obtain ⟨hm, hid, -⟩ := findOwned_spec h
  refine ⟨heq, ?_, ?_, ?_, ?_, ?_, ?_, ?_, ?_, ?_, ?_, ?_, ?_, ?_⟩
  · rw [heq]
    refine List.mem_map.mpr ⟨l, hm, ?_⟩
    simp [hid]
  · intro hx; simp [applyUpdates, hx]
  · intro hx; simp [applyUpdates, hx]
  · intro hx; simp [applyUpdates, hx]
  · intro hx; simp [applyUpdates, hx]
  · intro hx; simp [applyUpdates, hx]
  · intro v hx; simp [applyUpdates, hx]
  · intro v hx; simp [applyUpdates, hx]
  · intro v hx; simp [applyUpdates, hx]
  · intro v hx
    subst hx
    rfl
  · intro hx; simp [applyUpdatesV0, hx]
  · intro hx; simp [applyUpdatesV0, hx]
  · intro hx; simp [applyUpdatesV0, hx]

/-- C4 fixture: the stored location. -/
def c4loc : Location :=
  { id := 3, name := "Old", description := "D", address := "A", coordinates := some "1,2",
    userId := 2 }

/-- C4 fixture store. -/
def c4db : DB := { users := [], locations := [c4loc], nextUserId := 1, nextLocId := 4 }

/-- C4 fixture body: an update containing only name. -/
def c4body : UpdateBody :=
  { name := some "New", description := none, address := none, coordinates := none,
    userId := none }

/-- C4 witness: updating only name changes name, leaves description and
address unchanged, and the merged record is persisted. -/
theorem c4_partial_update_witness :
    (applyUpdates c4loc c4body).name = "New" ∧
    (applyUpdates c4loc c4body).description = c4loc.description ∧
    (applyUpdates c4loc c4body).address = c4loc.address ∧
    applyUpdates c4loc c4body ∈ (putLocalById c4db 2 3 c4body).2.locations := by
  have H := c4_partial_update c4db 2 3 c4body c4loc (by decide)
  obtain ⟨h1, h2, h3, h4, h5, h6, h7, h8, h9, h10, h11, h12, h13, h14⟩ := H
  exact ⟨h8 "New" rfl, h4 rfl, h5 rfl, h2⟩

/-! ## C2 -/

/-- C2: for an authenticated caller, the get, update, delete and map-link
operations all fail with the same 404 response whenever no location with
the requested id is owned by the caller, and the failure is the identical
response value whether no location with that id exists at all or one
exists but is owned by a different user. -/
theorem c2_notfound_ownership_isolation
    (db db1 db2 : DB) (uid lid lid1 lid2 : Nat) (body : UpdateBody)
    (geocode : String → Option (String × String))
    (h : ∀ l ∈ db.locations, ¬(l.id = lid ∧ l.userId = uid))
    (h1 : ∀ l ∈ db1.locations, l.id ≠ lid1)
    (h2 : ∀ l ∈ db2.locations, ¬(l.id = lid2 ∧ l.userId = uid)) :
    getLocalById db uid lid = .err 404 "Local não encontrado." ∧
    putLocalById db uid lid body = (.err 404 "Local não encontrado.", db) ∧
    putLocalByIdV0 db uid lid body = (.err 404 "Local não encontrado.", db) ∧
    deleteLocalById db uid lid = (.err 404 "Local não encontrado.", db) ∧
    getLocalMaps db uid lid geocode = .err 404 "Local não encontrado." ∧
    getLocalById db1 uid lid1 = getLocalById db2 uid lid2 ∧
    (putLocalById db1 uid lid1 body).1 = (putLocalById db2 uid lid2 body).1 ∧
    (deleteLocalById db1 uid lid1).1 = (deleteLocalById db2 uid lid2).1 ∧
    getLocalMaps db1 uid lid1 geocode = getLocalMaps db2 uid lid2 geocode := by
  have hn : findOwned db uid lid = none := (findOwned_eq_none_iff db uid lid).mpr h
  have hn1 : findOwned db1 uid lid1 = none :=
    (findOwned_eq_none_iff db1 uid lid1).mpr (fun l hl hc => h1 l hl hc.1)
  have hn2 : findOwned db2 uid lid2 = none := (findOwned_eq_none_iff db2 uid lid2).mpr h2
  refine ⟨?_, ?_, ?_, ?_, ?_, ?_, ?_, ?_, ?_⟩ <;>
    simp [getLocalById, putLocalById, putLocalByIdV0, deleteLocalById, getLocalMaps,
      hn, hn1, hn2]

/-- C2 witness: concrete instances of the hypotheses and conclusion.
`c2dbOther` holds a location with id 5 owned by user 9; caller 1 gets the
same 404 as against the empty store. -/
def c2dbOther : DB :=
  { users := [],
    locations := [{ id := 5, name := "p", description := "d", address := "a",
                    coordinates := none, userId := 9 }],
    nextUserId := 1, nextLocId := 6 }

/-- C2 witness body: an empty update. -/
def c2body : UpdateBody :=
  { name := none, description := none, address := none, coordinates := none, userId := none }

/-- C2 witness: the theorem applied at concrete inputs. -/
theorem c2_notfound_ownership_isolation_witness :
    getLocalById c2dbOther 1 5 = .err 404 "Local não encontrado." ∧
    putLocalById c2dbOther 1 5 c2body = (.err 404 "Local não encontrado.", c2dbOther) ∧
    putLocalByIdV0 c2dbOther 1 5 c2body = (.err 404 "Local não encontrado.", c2dbOther) ∧
    deleteLocalById c2dbOther 1 5 = (.err 404 "Local não encontrado.", c2dbOther) ∧
    getLocalMaps c2dbOther 1 5 (fun _ => none) = .err 404 "Local não encontrado." ∧
    getLocalById emptyDB 1 5 = getLocalById c2dbOther 1 5 ∧
    (putLocalById emptyDB 1 5 c2body).1 = (putLocalById c2dbOther 1 5 c2body).1 ∧
    (deleteLocalById emptyDB 1 5).1 = (deleteLocalById c2dbOther 1 5).1 ∧
    getLocalMaps emptyDB 1 5 (fun _ => none) = getLocalMaps c2dbOther 1 5 (fun _ => none) :=
  c2_notfound_ownership_isolation c2dbOther emptyDB c2dbOther 1 5 5 5 c2body (fun _ => none)
    (by decide) (by decide) (by decide)

/-! ## C3 -/

/-- C3: behaviour of the Auth Gate.  When the authorization header is
present but holds no credential the request is rejected 401; when
verification fails it is rejected 400 (InvalidToken); in the rejection
cases no downstream handler runs; on success the verified id is attached
and passed to the handler.  However, when the authorization header is
absent entirely, reading it throws an uncaught TypeError (surfacing as an
internal error), not the Unauthorized rejection the claim states. -/
theorem c3_auth_gate (secret : String) (now : Nat) (t : Token)
    (handler : Nat → DB → Resp × DB) (db : DB) :
    (auth .missing secret now = .crash ∧
     runProtected .missing secret now handler db = (.uncaughtTypeError, db) ∧
     Resp.uncaughtTypeError.statusCode = 500 ∧
     (Resp.uncaughtTypeError : Resp) ≠ .err 401 "Acesso negado. Nenhum token fornecido.") ∧
    (auth (.present none) secret now = .unauthorized ∧
     runProtected (.present none) secret now handler db
       = (.err 401 "Acesso negado. Nenhum token fornecido.", db)) ∧
    (jwtVerify t secret now = none →
      auth (.present (some t)) secret now = .invalidToken ∧
      runProtected (.present (some t)) secret now handler db = (.err 400 "Token inválido.", db)) ∧
    (∀ u, jwtVerify t secret now = some u →
      auth (.present (some t)) secret now = .ok u ∧
      runProtected (.present (some t)) secret now handler db = handler u db) := by
  refine ⟨⟨rfl, rfl, rfl, by simp⟩, ⟨rfl, rfl⟩, ?_, ?_⟩
  · intro hv
    constructor <;> simp [auth, runProtected, hv]
  · intro u hv
    constructor <;> simp [auth, runProtected, hv]

/-- C3 witness token: signed for user 7 with secret s, no expiry. -/
def c3tok : Token := jwtSign 7 "s" none 0

/-- C3 witness bad token: signed with a different secret. -/
def c3bad : Token := jwtSign 7 "x" none 0

/-- C3 witness handler: a downstream handler that reports the attached id. -/
def c3handler : Nat → DB → Resp × DB := fun uid db => (.okMsg 200 (toString uid), db)

/-- C3 witness: the theorem applied at concrete inputs. -/
theorem c3_auth_gate_witness :
    runProtected .missing "s" 0 c3handler emptyDB = (.uncaughtTypeError, emptyDB) ∧
    runProtected (.present none) "s" 0 c3handler emptyDB
      = (.err 401 "Acesso negado. Nenhum token fornecido.", emptyDB) ∧
    runProtected (.present (some c3bad)) "s" 0 c3handler emptyDB
      = (.err 400 "Token inválido.", emptyDB) ∧
    runProtected (.present (some c3tok)) "s" 0 c3handler emptyDB = c3handler 7 emptyDB :=
  ⟨(c3_auth_gate "s" 0 c3tok c3handler emptyDB).1.2.1,
   (c3_auth_gate "s" 0 c3tok c3handler emptyDB).2.1.2,
   ((c3_auth_gate "s" 0 c3bad c3handler emptyDB).2.2.1 (by decide)).2,
   ((c3_auth_gate "s" 0 c3tok c3handler emptyDB).2.2.2 7 (by decide)).2⟩

/-! ## C8 -/

/-- C8: user deletion by any authenticated caller is independent of the
caller identity; it fails 404 when the target user does not exist, fails
400 leaving the store unchanged when the target owns at least one
location, and otherwise removes the user, who is subsequently
unfindable. -/
theorem c8_delete_usuario (db : DB) (caller caller2 target : Nat) :
    deleteUsuarioById db caller target = deleteUsuarioById db caller2 target ∧
    (findByPk db target = none →
      deleteUsuarioById db caller target = (.err 404 "Usuário não encontrado.", db)) ∧
    (∀ u, findByPk db target = some u → userLocations db target ≠ [] →
      deleteUsuarioById db caller target
        = (.err 400 "Usuário não pode ser deletado, pois possui locais associados.", db)) ∧
    (∀ u, findByPk db target = some u → userLocations db target = [] →
      deleteUsuarioById db caller target
        = (.okMsg 200 "Usuário deletado com sucesso.",
           { db with users := db.users.filter (fun x => !(x.id == target)) }) ∧
      findByPk (deleteUsuarioById db caller target).2 target = none) := by
  refine ⟨rfl, ?_, ?_, ?_⟩
  · intro hnone
    simp [deleteUsuarioById, hnone]
  · intro u hu hne
    have hlen : 0 < (userLocations db target).length := List.length_pos.mpr hne
    simp [deleteUsuarioById, hu, hlen]
  · intro u hu hnil
    have heq : deleteUsuarioById db caller target
        = (.okMsg 200 "Usuário deletado com sucesso.",
           { db with users := db.users.filter (fun x => !(x.id == target)) }) := by
      simp [deleteUsuarioById, hu, hnil]
    refine ⟨heq, ?_⟩
    rw [heq]
    unfold findByPk
    rw [List.find?_eq_none]
    intro x hx
    have hxf := (List.mem_filter.mp hx).2
    simpa using hxf

/-- C8 witness user (id 2). -/
def c8user : User :=
  { id := 2, name := "User One", gender := "M", cpf := "11111111111",
    address := "123 Street", email := "userone@example.com",
    password := bcryptHash "password", birthdate := "1990-01-01" }

/-- C8 witness store where user 2 owns a location. -/
def c8dbOwns : DB :=
  { users := [c8user],
    locations := [{ id := 1, name := "p", description := "d", address := "a",
                    coordinates := none, userId := 2 }],
    nextUserId := 3, nextLocId := 2 }

/-- C8 witness store where user 2 owns no location. -/
def c8dbFree : DB := { users := [c8user], locations := [], nextUserId := 3, nextLocId := 1 }

/-- C8 witness: the theorem applied at concrete inputs (caller 7 is not
the target 2 and deletion proceeds regardless). -/
theorem c8_delete_usuario_witness :
    deleteUsuarioById c8dbOwns 7 2
      = (.err 400 "Usuário não pode ser deletado, pois possui locais associados.", c8dbOwns) ∧
    (deleteUsuarioById c8dbFree 7 2
      = (.okMsg 200 "Usuário deletado com sucesso.",
         { c8dbFree with users := c8dbFree.users.filter (fun x => !(x.id == 2)) }) ∧
     findByPk (deleteUsuarioById c8dbFree 7 2).2 2 = none) ∧
    deleteUsuarioById c8dbFree 7 5 = (.err 404 "Usuário não encontrado.", c8dbFree) :=
  ⟨(c8_delete_usuario c8dbOwns 7 9 2).2.2.1 c8user (by decide) (by decide),
   (c8_delete_usuario c8dbFree 7 9 2).2.2.2 c8user (by decide) (by decide),
   (c8_delete_usuario c8dbFree 7 9 5).2.1 (by decide)⟩

/-! ## C10 -/

/-- C10: the src/index.js create route persists a caller-supplied
coordinates value verbatim onto the new location, while the part_000
create route discards any coordinates field from the body (the stored
coordinates are absent until geocoded). -/
theorem c10_create_coordinates (db : DB) (uid : Nat) (b : CreateBody)
    (h1 : b.name.length ≥ 1) (h2 : b.description.length ≥ 1) :
    postLocalIdx db uid b
      = (.okLocation 201
          { id := db.nextLocId, name := b.name, description := b.description,
            address := b.address, coordinates := b.coordinates, userId := uid },
         { db with
           locations :=
             db.locations ++
               [{ id := db.nextLocId, name := b.name, description := b.description,
                  address := b.address, coordinates := b.coordinates, userId := uid }],
           nextLocId := db.nextLocId + 1 }) ∧
    (∀ l ∈ (postLocalIdx db uid b).2.locations, l ∈ db.locations ∨ l.coordinates = b.coordinates) ∧
    postLocal db uid b
      = (.okLocation 201
          { id := db.nextLocId, name := sanitize b.name, description := sanitize b.description,
            address := sanitize b.address, coordinates := none, userId := uid },
         { db with
           locations :=
             db.locations ++
               [{ id := db.nextLocId, name := sanitize b.name, description := sanitize b.description,
                  address := sanitize b.address, coordinates := none, userId := uid }],
           nextLocId := db.nextLocId + 1 }) ∧
    (∀ l ∈ (postLocal db uid b).2.locations, l ∈ db.locations ∨ l.coordinates = none) := by
  refine ⟨rfl, ?_, ?_, ?_⟩
  · intro l hl
    simp only [postLocalIdx, List.mem_append, List.mem_singleton] at hl
    rcases hl with hl | hl
    · exact Or.inl hl
    · subst hl; exact Or.inr rfl
  · simp [postLocal, h1, h2]
  · intro l hl
    simp only [postLocal, h1, h2, ge_iff_le, le_refl, ite_true, ne_eq, List.append_nil,
      List.nil_append, not_true_eq_false, if_false, ite_self] at hl
    simp only [reduceIte, List.mem_append, List.mem_singleton] at hl
    rcases hl with hl | hl
    · exact Or.inl hl
    · subst hl; exact Or.inr rfl

/-- C10 witness body carrying caller-supplied coordinates. -/
def c10body : CreateBody :=
  { name := "Park", description := "desc", address := "Central Park, NY",
    coordinates := some "-23.5, -46.6" }

/-- C10 witness: the theorem applied at concrete inputs; the index.js
version stores the supplied coordinates, the part_000 version stores
none. -/
theorem c10_create_coordinates_witness :
    (∀ l ∈ (postLocalIdx emptyDB 1 c10body).2.locations,
       l ∈ emptyDB.locations ∨ l.coordinates = c10body.coordinates) ∧
    (∀ l ∈ (postLocal emptyDB 1 c10body).2.locations,
       l ∈ emptyDB.locations ∨ l.coordinates = none) :=
  ⟨(c10_create_coordinates emptyDB 1 c10body (by decide) (by decide)).2.1,
   (c10_create_coordinates emptyDB 1 c10body (by decide) (by decide)).2.2.2⟩

/-! ## C5 -/

/-- The registration validator chain accepts exactly when every field
check passes. -/
theorem validateRegister_eq_nil_iff (b : RegisterBody) :
    validateRegister b = [] ↔
      (b.name ≠ "" ∧ (b.gender = "M" ∨ b.gender = "F") ∧ b.cpf.length = 11 ∧
       b.address ≠ "" ∧ isEmailModel b.email = true ∧ b.password.length ≥ 6 ∧
       isISO8601Date b.birthdate = true) := by
  unfold validateRegister
  split_ifs <;> simp_all

/-- C5 fixture: a registration body whose password has exactly 6
characters, which registration accepts. -/
def c5shortBody : RegisterBody :=
  { name := "Maria Oliveira", gender := "F", cpf := "98765432150",
    address := "Avenida Brasil, 500", email := "maria@example.com",
    password := "senha1", birthdate := "1985-07-15" }

/-- C5 counterexample: registration accepts a 6-character password and
returns 201, but a subsequent login with the very same credentials is
rejected by the login route's own validator, which demands at least 8
characters — so the claim does not hold for every password of at least 6
characters. -/
theorem c5_counterexample :
    validateRegister c5shortBody = [] ∧
    (postUsuario emptyDB c5shortBody "s").1.statusCode = 201 ∧
    c5shortBody.password.length = 6 ∧
    postLogin (postUsuario emptyDB c5shortBody "s").2 c5shortBody.email
        c5shortBody.password "s" 0
      = .validationErrors ["password"] := by
  decide

/-- C5 (amended): a successful registration followed by login with the
same credentials succeeds and yields a verifiable token bound to the
user's identifier, provided the password has at least 8 characters (the
login validator's minimum) and the email is unchanged by the login
route's normalization (already all-lowercase). -/
theorem c5_register_then_login (db : DB) (b : RegisterBody) (secret : String) (now : Nat)
    (hv : validateRegister b = [])
    (hdup : dupUser db b.cpf b.email = none)
    (hp : b.password.length ≥ 8)
    (hn : normalizeEmail b.email = b.email) :
    postUsuario db b secret
      = (.okUserToken 201 (mkUser db b) (jwtSign (mkUser db b).id secret none 0),
         { db with users := db.users ++ [mkUser db b], nextUserId := db.nextUserId + 1 }) ∧
    postLogin (postUsuario db b secret).2 b.email b.password secret now
      = .okUserToken 200 (mkUser db b) (jwtSign (mkUser db b).id secret (some 3600) now) ∧
    jwtVerify (jwtSign (mkUser db b).id secret (some 3600) now) secret now
      = some (mkUser db b).id := by
  have he : isEmailModel b.email = true := ((validateRegister_eq_nil_iff b).mp hv).2.2.2.2.1
  have hreg : postUsuario db b secret
      = (.okUserToken 201 (mkUser db b) (jwtSign (mkUser db b).id secret none 0),
         { db with users := db.users ++ [mkUser db b], nextUserId := db.nextUserId + 1 }) := by
    simp [postUsuario, hv, hdup]
  have hfind : findByEmail (postUsuario db b secret).2 (normalizeEmail b.email)
      = some (mkUser db b) := by
    rw [hreg, hn]
    unfold findByEmail
    simp only [List.find?_append]
    have h1 : db.users.find? (fun u => u.email == b.email) = none := by
      rw [List.find?_eq_none]
      intro u hu
      have := List.find?_eq_none.mp hdup u hu
      simp only [Bool.or_eq_true, beq_iff_eq] at this
      simp only [beq_iff_eq]
      tauto
    rw [h1]
    simp [mkUser]
  refine ⟨hreg, ?_, ?_⟩
  · rw [hreg]
    simp only [postLogin, he, hp]
    simp only [ite_true, List.append_nil, List.nil_append, ne_eq, not_true_eq_false, ite_self]
    rw [if_neg (by simp)]
    rw [hreg] at hfind
    rw [hfind]
    simp [bcryptCompare, mkUser, bcryptHash]
  · simp [jwtVerify, jwtSign]

/-- C5 fixture: a registration body with an 8-character password and an
all-lowercase email. -/
def c5goodBody : RegisterBody :=
  { name := "Maria Oliveira", gender := "F", cpf := "98765432150",
    address := "Avenida Brasil, 500", email := "maria@example.com",
    password := "senha123", birthdate := "1985-07-15" }

/-- C5 witness: the amended theorem applied at concrete inputs. -/
theorem c5_register_then_login_witness :
    postLogin (postUsuario emptyDB c5goodBody "s").2 c5goodBody.email
        c5goodBody.password "s" 0
      = .okUserToken 200 (mkUser emptyDB c5goodBody)
          (jwtSign (mkUser emptyDB c5goodBody).id "s" (some 3600) 0) ∧
    jwtVerify (jwtSign (mkUser emptyDB c5goodBody).id "s" (some 3600) 0) "s" 0
      = some (mkUser emptyDB c5goodBody).id := by
  have H := c5_register_then_login emptyDB c5goodBody "s" 0
    (by decide) (by decide) (by decide) (by decide)
  exact ⟨H.2.1, H.2.2⟩

/-! ## C6 -/

/-- C6 fixture: a registration body violating every field validation. -/
def c6bad : RegisterBody :=
  { name := "", gender := "X", cpf := "123", address := "", email := "notanemail",
    password := "abc", birthdate := "soon" }

/-- C6 counterexample: the src/index.js registration route has no field
validation at all — a body violating every rule is persisted and answered
201, with no ValidationFailed and a user created. -/
theorem c6_counterexample :
    validateRegister c6bad = ["name", "gender", "cpf", "address", "email", "password",
      "birthdate"] ∧
    (postUsuarioIdx emptyDB c6bad "s").1.statusCode = 201 ∧
    (postUsuarioIdx emptyDB c6bad "s").2.users.length = 1 := by
  decide

/-- C6 (amended): in the part_000 route version the field validations are
enforced before any persistence attempt — a violation answers with the
list of offending fields and leaves the user table untouched, and each
field appears in that list exactly when its check fails.  (The
src/index.js version performs no field validation.) -/
theorem c6_validation_before_persistence (db : DB) (b : RegisterBody) (secret : String)
    (h : validateRegister b ≠ []) :
    postUsuario db b secret = (.validationErrors (validateRegister b), db) ∧
    (postUsuario db b secret).2.users = db.users ∧
    ("name" ∈ validateRegister b ↔ b.name = "") ∧
    ("gender" ∈ validateRegister b ↔ ¬(b.gender = "M" ∨ b.gender = "F")) ∧
    ("cpf" ∈ validateRegister b ↔ b.cpf.length ≠ 11) ∧
    ("address" ∈ validateRegister b ↔ b.address = "") ∧
    ("email" ∈ validateRegister b ↔ ¬isEmailModel b.email) ∧
    ("password" ∈ validateRegister b ↔ b.password.length < 6) ∧
    ("birthdate" ∈ validateRegister b ↔ ¬isISO8601Date b.birthdate) := by
  refine ⟨by simp [postUsuario, h], by simp [postUsuario, h], ?_, ?_, ?_, ?_, ?_, ?_, ?_⟩ <;>
    simp [validateRegister, List.mem_append, mem_ite_nil_r, mem_ite_nil_l,
      Nat.lt_iff_add_one_le, Nat.not_le, Nat.not_lt]

/-- C6 witness: the amended theorem applied at the all-invalid body. -/
theorem c6_validation_before_persistence_witness :
    postUsuario emptyDB c6bad "s" = (.validationErrors (validateRegister c6bad), emptyDB) ∧
    (postUsuario emptyDB c6bad "s").2.users = emptyDB.users ∧
    ("password" ∈ validateRegister c6bad ↔ c6bad.password.length < 6) := by
  have H := c6_validation_before_persistence emptyDB c6bad "s" (by decide)
  obtain ⟨h1, h2, -, -, -, -, -, h8, -⟩ := H
  exact ⟨h1, h2, h8⟩

/-! ## C7 -/

/-- C7 fixture: a stored user whose password hash matches password1. -/
def c7user : User :=
  { id := 1, name := "U", gender := "M", cpf := "11111111111", address := "A",
    email := "u@mail.co", password := bcryptHash "password1", birthdate := "1990-01-01" }

/-- C7 fixture store. -/
def c7db : DB := { users := [c7user], locations := [], nextUserId := 2, nextLocId := 1 }

/-- C7 counterexample: in the src/index.js version a successful login
issues a token with no expiry at all — verification still succeeds
arbitrarily far in the future, contradicting the claim that every
successful login carries a short expiry after which verification fails. -/
theorem c7_counterexample :
    postLoginIdx c7db "u@mail.co" "password1" "s" 0
      = .okUserToken 200 c7user { userId := 1, exp := none, secret := "s" } ∧
    jwtVerify { userId := 1, exp := none, secret := "s" } "s" 999999999 = some 1 := by
  decide

/-- C7 (amended): in the part_000 version every successful login issues a
token bound to the user's id with a 3600-second expiry — verification
succeeds strictly before that instant and fails from it on — and every
successful registration (both versions) issues a token bound to the new
user's id with no expiry, which verifies at every instant. -/
theorem c7_token_expiry (db db2 db3 : DB) (email password secret : String) (now : Nat)
    (u u2 : User) (t t2 : Token) (b : RegisterBody)
    (hl : postLogin db email password secret now = .okUserToken 200 u t)
    (hr : postUsuario db2 b secret = (.okUserToken 201 u2 t2, db3)) :
    t.exp = some (now + 3600) ∧ t.userId = u.id ∧
    (∀ k, jwtVerify t secret k = if k < now + 3600 then some u.id else none) ∧
    t2.exp = none ∧ t2.userId = u2.id ∧
    (∀ k, jwtVerify t2 secret k = some u2.id) := by
  have H1 : t = jwtSign u.id secret (some 3600) now := by
    by_cases he : isEmailModel email
    · by_cases hp : password.length ≥ 8
      · simp only [postLogin, he, hp, ite_true, List.nil_append, List.append_nil] at hl
        rw [if_neg (by simp)] at hl
        cases hfind : findByEmail db (normalizeEmail email) with
        | none => rw [hfind] at hl; exact absurd hl (by simp)
        | some w =>
          rw [hfind] at hl
          by_cases hc : bcryptCompare password w.password
          · simp only [hc, ite_true, Resp.okUserToken.injEq] at hl
            obtain ⟨-, hu, ht⟩ := hl
            subst hu
            exact ht.symm
          · simp only [hc, ite_false, Bool.false_eq_true, if_false] at hl
            exact absurd hl (by simp)
      · simp only [postLogin, he, hp, ite_true, ite_false, List.nil_append] at hl
        rw [if_pos (by simp)] at hl
        exact absurd hl (by simp)
    · simp only [postLogin, he, ite_false] at hl
      rw [if_pos (by simp)] at hl
      exact absurd hl (by simp)
  have H2 : t2 = jwtSign u2.id secret none 0 := by
    by_cases hv : validateRegister b = []
    · have hne : ¬(validateRegister b ≠ []) := by simp [hv]
      simp only [postUsuario, hne, ite_false] at hr
      cases hdup : dupUser db2 b.cpf b.email with
      | some w => rw [hdup] at hr; exact absurd hr (by simp)
      | none =>
        rw [hdup] at hr
        simp only [Prod.mk.injEq, Resp.okUserToken.injEq] at hr
        obtain ⟨⟨-, hu, ht⟩, -⟩ := hr
        subst hu
        exact ht.symm
    · simp only [postUsuario, hv, ne_eq, not_false_eq_true, ite_true] at hr
      exact absurd hr (by simp)
  subst H1 H2
  refine ⟨rfl, rfl, ?_, rfl, rfl, ?_⟩
  · intro k
    simp [jwtVerify, jwtSign]
  · intro k
    simp [jwtVerify, jwtSign]

/-- C7 fixture: a valid registration body. -/
def c7reg : RegisterBody :=
  { name := "Bob", gender := "M", cpf := "22222222222", address := "B",
    email := "bob@mail.co", password := "password1", birthdate := "1991-02-03" }

/-- C7 witness: the amended theorem applied at concrete inputs. -/
theorem c7_token_expiry_witness :
    (jwtSign 1 "s" (some 3600) 0).exp = some (0 + 3600) ∧
    (∀ k, jwtVerify (jwtSign 1 "s" (some 3600) 0) "s" k
        = if k < 0 + 3600 then some c7user.id else none) ∧
    (jwtSign 1 "s" none 0).exp = none ∧
    (∀ k, jwtVerify (jwtSign 1 "s" none 0) "s" k = some (mkUser emptyDB c7reg).id) := by
  have H := c7_token_expiry c7db emptyDB (postUsuario emptyDB c7reg "s").2
    "u@mail.co" "password1" "s" 0 c7user (mkUser emptyDB c7reg)
    (jwtSign 1 "s" (some 3600) 0) (jwtSign 1 "s" none 0) c7reg (by decide) (by decide)
  exact ⟨H.1, H.2.2.1, H.2.2.2.1, H.2.2.2.2.2⟩

/-! ## C9 -/

/-- C9 fixture: a stored user. -/
def c9user : User :=
  { id := 1, name := "Alice", gender := "F", cpf := "33333333333", address := "A",
    email := "alice@mail.com", password := bcryptHash "password1", birthdate := "1990-01-01" }

/-- C9 fixture store. -/
def c9db : DB := { users := [c9user], locations := [], nextUserId := 2, nextLocId := 1 }

/-- C9 counterexample: in both route versions the two login failures are
different response values — a missing account answers with one message, a
wrong password with another — so the caller-visible failure does reveal
whether the account exists. -/
theorem c9_counterexample :
    postLogin c9db "bob@mail.com" "password1" "s" 0 = .err 400 "Usuário não encontrado." ∧
    postLogin c9db "alice@mail.com" "wrongpass1" "s" 0 = .err 400 "Senha incorreta." ∧
    postLogin c9db "bob@mail.com" "password1" "s" 0
      ≠ postLogin c9db "alice@mail.com" "wrongpass1" "s" 0 ∧
    postLoginIdx c9db "bob@mail.com" "password1" "s" 0
      ≠ postLoginIdx c9db "alice@mail.com" "wrongpass1" "s" 0 := by
  decide

/-- C9 (amended): both login failure paths answer with the same status
code 400, but with different bodies — the missing-account and
wrong-password responses are distinct values, in both route versions, so
the response reveals whether the account exists. -/
theorem c9_login_failures (db db2 dbI dbI2 : DB)
    (email password email2 password2 emailI passwordI emailI2 passwordI2 secret : String)
    (now : Nat) (u uI : User)
    (he : isEmailModel email = true) (hp : password.length ≥ 8)
    (hmiss : findByEmail db (normalizeEmail email) = none)
    (he2 : isEmailModel email2 = true) (hp2 : password2.length ≥ 8)
    (hhit : findByEmail db2 (normalizeEmail email2) = some u)
    (hbad : bcryptCompare password2 u.password = false)
    (hmissI : findByEmail dbI emailI = none)
    (hhitI : findByEmail dbI2 emailI2 = some uI)
    (hbadI : bcryptCompare passwordI2 uI.password = false) :
    postLogin db email password secret now = .err 400 "Usuário não encontrado." ∧
    postLogin db2 email2 password2 secret now = .err 400 "Senha incorreta." ∧
    (postLogin db email password secret now).statusCode = 400 ∧
    (postLogin db2 email2 password2 secret now).statusCode = 400 ∧
    postLogin db email password secret now ≠ postLogin db2 email2 password2 secret now ∧
    postLoginIdx dbI emailI passwordI secret now = .err 400 "Usuário não encontrado." ∧
    postLoginIdx dbI2 emailI2 passwordI2 secret now = .err 400 "Senha incorreta." ∧
    postLoginIdx dbI emailI passwordI secret now
      ≠ postLoginIdx dbI2 emailI2 passwordI2 secret now := by
  have h1 : postLogin db email password secret now = .err 400 "Usuário não encontrado." := by
    simp only [postLogin, he, hp, ite_true, List.nil_append, List.append_nil]
    rw [if_neg (by simp)]
    rw [hmiss]
  have h2 : postLogin db2 email2 password2 secret now = .err 400 "Senha incorreta." := by
    simp only [postLogin, he2, hp2, ite_true, List.nil_append, List.append_nil]
    rw [if_neg (by simp)]
    rw [hhit]
    simp [hbad]
  have h3 : postLoginIdx dbI emailI passwordI secret now
      = .err 400 "Usuário não encontrado." := by
    simp [postLoginIdx, hmissI]
  have h4 : postLoginIdx dbI2 emailI2 passwordI2 secret now = .err 400 "Senha incorreta." := by
    simp [postLoginIdx, hhitI, hbadI]
  refine ⟨h1, h2, by rw [h1]; rfl, by rw [h2]; rfl, by rw [h1, h2]; simp, h3, h4,
    by rw [h3, h4]; simp⟩

/-- C9 witness: the amended theorem applied at concrete inputs. -/
theorem c9_login_failures_witness :
    postLogin c9db "bob@mail.com" "password2" "s" 0 = .err 400 "Usuário não encontrado." ∧
    postLogin c9db "alice@mail.com" "wrongpass2" "s" 0 = .err 400 "Senha incorreta." ∧
    (postLogin c9db "bob@mail.com" "password2" "s" 0).statusCode = 400 ∧
    (postLogin c9db "alice@mail.com" "wrongpass2" "s" 0).statusCode = 400 ∧
    postLogin c9db "bob@mail.com" "password2" "s" 0
      ≠ postLogin c9db "alice@mail.com" "wrongpass2" "s" 0 ∧
    postLoginIdx c9db "bob@mail.com" "password2" "s" 0 = .err 400 "Usuário não encontrado." ∧
    postLoginIdx c9db "alice@mail.com" "wrongpass2" "s" 0 = .err 400 "Senha incorreta." ∧
    postLoginIdx c9db "bob@mail.com" "password2" "s" 0
      ≠ postLoginIdx c9db "alice@mail.com" "wrongpass2" "s" 0 :=
  c9_login_failures c9db c9db c9db c9db "bob@mail.com" "password2" "alice@mail.com"
    "wrongpass2" "bob@mail.com" "password2" "alice@mail.com" "wrongpass2" "s" 0 c9user c9user
    (by decide) (by decide) (by decide) (by decide) (by decide) (by decide) (by decide)
    (by decide) (by decide) (by decide)

end Exercita365
